import Mathlib

/-!
Shallow embedding of the opportunity-detection, scoring and staging engine of
the insider-purchase research pipeline (source files `scraper.py` and
`asistente.py`).

Modelling conventions:
* pandas DataFrames become `List Row`; every pandas filter preserves order, so
  each `df[mask]` step becomes a `List.filter`.
* Python floats become `ℚ`.  Display-only roundings in the source
  (`round(x, 1)`, `round(x, 2)`, `int(x)` on already-integral data) are
  omitted; every value that feeds a comparison, a score or the momentum
  formula is kept exact.
* Python's stable `list.sort(key=k, reverse=True)` / `sorted(..., reverse=True)`
  becomes `List.mergeSort` (also stable) with the Boolean relation
  `fun a b => decide (k b ≤ k a)`.
* dictionaries keyed by ticker become functions `String → Option _`.
-/

namespace Mybot

/-- Python's substring operator `needle in hay` (also the semantics of
pandas `str.contains` applied to an alternation of literal patterns,
per literal). -/
def strContains (hay needle : String) : Bool :=
  hay.toList.tails.any (fun t => needle.toList.isPrefixOf t)

/-- Python's `str.lower()`, character by character (the character-list
spelling of `String.toLower`). -/
def lowerStr (s : String) : String :=
  String.mk (s.toList.map Char.toLower)

/-- `any(word in hay for word in words)` — used for every role-allowlist test. -/
def matchesAny (hay : String) (words : List String) : Bool :=
  words.any (fun w => strContains hay w)

/-- One cleaned row of the scraped table (`scraper.py` lines 89-115).
`price`, `qty`, `transaction_value` are the cleaned numeric fields;
`days_since_trade` is the derived age of the trade in days. -/
structure Row where
  filing_date : String
  trade_date : String
  ticker : String
  company_name : String
  insider_name : String
  title : String
  transaction_type : String
  price : ℚ
  qty : ℚ
  shares_owned : ℚ
  ownership_change : ℚ
  transaction_value : ℚ
  days_since_trade : Int
deriving DecidableEq

/-- `config['whale_threshold']` (`scraper.py` line 30). -/
def whale_threshold : ℚ := 99000000

/-- `config['min_purchase_value']` (`scraper.py` line 28). -/
def min_purchase_value : ℚ := 500000

/-- `relevant_insiders` (`scraper.py` lines 38-42). -/
def relevant_insiders : List String :=
  ["ceo", "chief executive", "founder", "co-founder",
   "cfo", "chief financial", "president", "chairman",
   "chair", "10%"]

/-- `whale_insiders` (`scraper.py` lines 45-47). -/
def whale_insiders : List String :=
  ["ceo", "chief executive", "founder", "co-founder", "10%"]

/-- `df['ticker'].str.len().between(1, 5)` (`scraper.py` lines 198, 301). -/
def ticker_len_ok (r : Row) : Bool :=
  decide (1 ≤ r.ticker.length) && decide (r.ticker.length ≤ 5)

/-- `df['price'] > 0` (`scraper.py` lines 199, 305). -/
def price_ok (r : Row) : Bool :=
  decide (0 < r.price)

/-- `df['transaction_type'].str.contains('P - Purchase', na=False)`
(`scraper.py` lines 196, 284). -/
def is_purchase_row (r : Row) : Bool :=
  strContains r.transaction_type "P - Purchase"

/-- The whale mask (`scraper.py` lines 194-200): absolute value at or above
the whale threshold, a purchase, a whale-allowlist title, ticker length
1-5 and a positive price. -/
def whaleCond (r : Row) : Bool :=
  decide (whale_threshold ≤ |r.transaction_value|) &&
  is_purchase_row r &&
  matchesAny (lowerStr r.title) whale_insiders &&
  ticker_len_ok r &&
  price_ok r

/-- Freshness label (`scraper.py` lines 209-218 and 350-355 use the same
thresholds): age ≤ 7 days → fresh, ≤ 21 → recent, else old. -/
def freshnessLabel (days : Int) : String :=
  if days ≤ 7 then "fresh" else if days ≤ 21 then "recent" else "old"

/-- Freshness score contribution of a whale (`scraper.py` lines 209-218). -/
def freshness_score (days : Int) : ℕ :=
  if days ≤ 7 then 30 else if days ≤ 21 then 20 else 10

/-- Confidence label of a whale (`scraper.py` lines 221-230). -/
def confidenceLabel (title : String) : String :=
  if matchesAny (lowerStr title) ["ceo", "chief executive", "founder", "co-founder"] then "high"
  else if strContains (lowerStr title) "10%" then "high"
  else "medium"

/-- Confidence score contribution of a whale (`scraper.py` lines 221-230). -/
def confidence_score (title : String) : ℕ :=
  if matchesAny (lowerStr title) ["ceo", "chief executive", "founder", "co-founder"] then 30
  else if strContains (lowerStr title) "10%" then 25
  else 15

/-- `whale_score = min(40 + freshness_score + confidence_score, 100)`
(`scraper.py` lines 233-238). -/
def whale_score (days : Int) (title : String) : ℕ :=
  min (40 + freshness_score days + confidence_score title) 100

/-- A whale opportunity record (`scraper.py` lines 240-255).  The
display-only fields `purchase_value_millions` and `qty_purchased` and the
display roundings are omitted; `purchase_value_usd` keeps the exact
absolute transaction value. -/
structure WhaleOpp where
  ticker : String
  company_name : String
  insider_name : String
  title : String
  purchase_value_usd : ℚ
  purchase_price : ℚ
  purchase_date : String
  days_since_trade : Int
  freshness : String
  confidence : String
  whale_score : ℕ
deriving DecidableEq

/-- Builds the whale record of one qualifying row (`scraper.py` lines
207-257). -/
def mkWhaleOpp (r : Row) : WhaleOpp :=
  { ticker := r.ticker
    company_name := r.company_name
    insider_name := r.insider_name
    title := r.title
    purchase_value_usd := |r.transaction_value|
    purchase_price := r.price
    purchase_date := r.trade_date
    days_since_trade := r.days_since_trade
    freshness := freshnessLabel r.days_since_trade
    confidence := confidenceLabel r.title
    whale_score := whale_score r.days_since_trade r.title }

/-- `detect_whale_trades` (`scraper.py` lines 189-274): filter the whale
mask, build one record per surviving row, stable-sort by score
descending. -/
def detect_whale_trades (df : List Row) : List WhaleOpp :=
  ((df.filter whaleCond).map mkWhaleOpp).mergeSort
    (fun a b => decide (b.whale_score ≤ a.whale_score))

/-- The cluster value mask (`scraper.py` lines 287-293): the source sets
`max_value = whale_threshold - 1` and keeps `min_value ≤ |v| < max_value`. -/
def cluster_value_ok (r : Row) : Bool :=
  decide (min_purchase_value ≤ |r.transaction_value|) &&
  decide (|r.transaction_value| < whale_threshold - 1)

/-- The broad (C-suite) title mask (`scraper.py` line 297). -/
def relevant_title_ok (r : Row) : Bool :=
  matchesAny (lowerStr r.title) relevant_insiders

/-- `drop_duplicates` keeping the first occurrence of each key, with an
accumulator of keys already seen (pandas `keep='first'` semantics,
`scraper.py` line 309; also used for Python `set` cardinality and
`dict` insertion order). -/
def dedupByAux {α κ : Type} [DecidableEq κ] (key : α → κ) : List α → List κ → List α
  | [], _ => []
  | a :: as, seen =>
      if key a ∈ seen then dedupByAux key as seen
      else a :: dedupByAux key as (key a :: seen)

/-- `l.drop_duplicates(subset=key)` — first occurrence wins. -/
def drop_duplicates {α κ : Type} [DecidableEq κ] (key : α → κ) (l : List α) : List α :=
  dedupByAux key l []

/-- The dedup key of `scraper.py` line 309:
`['ticker', 'insider_name', 'trade_date', 'transaction_value']`. -/
def dup_key (r : Row) : String × String × String × ℚ :=
  (r.ticker, r.insider_name, r.trade_date, r.transaction_value)

/-- Filter steps 1-5 of `apply_intelligent_filters` (`scraper.py` lines
283-306): purchases only, cluster value range, C-suite titles, valid
tickers, positive prices. -/
def cluster_prefilter (df : List Row) : List Row :=
  ((((df.filter is_purchase_row).filter cluster_value_ok).filter
      relevant_title_ok).filter ticker_len_ok).filter price_ok

/-- `apply_intelligent_filters` (`scraper.py` lines 276-312): the five
masks, then exact-duplicate removal (step 6, line 309). -/
def apply_intelligent_filters (df : List Row) : List Row :=
  drop_duplicates dup_key (cluster_prefilter df)

/-- One member purchase of a cluster (`scraper.py` lines 321-331);
`value` is the absolute transaction value. -/
structure Purchase where
  insider : String
  title : String
  value : ℚ
  price : ℚ
  date : String
  days_since : Int
  qty : ℚ
deriving DecidableEq

/-- Row → member purchase (`scraper.py` lines 321-331). -/
def mkPurchase (r : Row) : Purchase :=
  { insider := r.insider_name
    title := r.title
    value := |r.transaction_value|
    price := r.price
    date := r.trade_date
    days_since := r.days_since_trade
    qty := r.qty }

/-- The tickers of the grouping dictionary in first-occurrence order
(Python `defaultdict` insertion order, `scraper.py` lines 319-331). -/
def group_tickers (df : List Row) : List String :=
  drop_duplicates id (df.map (fun r => r.ticker))

/-- The member purchases of one ticker, in dataframe order. -/
def purchases_for (df : List Row) (t : String) : List Purchase :=
  (df.filter (fun r => r.ticker == t)).map mkPurchase

/-- Total-value component of the cluster score (`scraper.py` lines
392-400). -/
def value_points (total_value : ℚ) : ℕ :=
  if 5000000 ≤ total_value then 25
  else if 2000000 ≤ total_value then 20
  else if 1000000 ≤ total_value then 15
  else if 500000 ≤ total_value then 10
  else 0

/-- Cluster-effect component (`scraper.py` lines 402-408). -/
def cluster_effect_points (insider_count : ℕ) : ℕ :=
  if 3 ≤ insider_count then 25 else if 2 ≤ insider_count then 20 else 10

/-- Per-member insider-quality points: the `if/elif` chain of
`scraper.py` lines 413-425, evaluated top to bottom, first match wins. -/
def insider_points (title : String) : ℕ :=
  let t := (lowerStr title)
  if matchesAny t ["ceo", "chief executive"] then 25
  else if matchesAny t ["cfo", "chief financial"] then 20
  else if matchesAny t ["founder", "co-founder"] then 25
  else if strContains t "10%" then 20
  else if matchesAny t ["president", "chairman"] then 15
  else 8

/-- Insider-quality component: running maximum over the members, starting
from 0 (`scraper.py` lines 411-427). -/
def insider_quality (purchases : List Purchase) : ℕ :=
  purchases.foldl (fun m p => max m (insider_points p.title)) 0

/-- Freshness bonus (`scraper.py` lines 429-439). -/
def freshness_bonus (days_since : Int) : ℕ :=
  if days_since ≤ 7 then 25
  else if days_since ≤ 14 then 20
  else if days_since ≤ 21 then 15
  else if days_since ≤ 30 then 10
  else 5

/-- `_calculate_cluster_score` (`scraper.py` lines 388-441): the source
accumulates the four components into `score` one `+=` at a time and
returns `min(score, 100)`; the sum below is that accumulation. -/
def calculate_cluster_score (purchases : List Purchase) (total_value : ℚ)
    (insider_count : ℕ) (days_since : Int) : ℕ :=
  min (value_points total_value + cluster_effect_points insider_count +
       insider_quality purchases + freshness_bonus days_since) 100

/-- Python `max(...)` over a nonempty list of date strings
(lexicographic); `""` on the empty list (unreached: every cluster has at
least one member). -/
def maxDate : List String → String
  | [] => ""
  | d :: ds => ds.foldl max d

/-- Python `min(...)` over a nonempty list of day counts; `0` on the empty
list (unreached). -/
def minDays : List Int → Int
  | [] => 0
  | d :: ds => ds.foldl min d

/-- A cluster aggregate (`scraper.py` lines 360-372). -/
structure Cluster where
  ticker : String
  insider_count : ℕ
  total_value : ℚ
  avg_value : ℚ
  avg_purchase_price : ℚ
  latest_purchase : String
  days_since_latest : Int
  freshness : String
  score : ℕ
  purchases : List Purchase
deriving DecidableEq

/-- The per-ticker aggregation body (`scraper.py` lines 336-372):
`total_value` sums the absolute member values, `insider_count` counts
distinct insider names, `avg_purchase_price` is the value-weighted mean
price, `days_since_latest` is the minimum member age. -/
def mkCluster (t : String) (purchases : List Purchase) : Cluster :=
  let total_value := (purchases.map (fun p => p.value)).sum
  let insider_count := (drop_duplicates id (purchases.map (fun p => p.insider))).length
  let weighted_price := (purchases.map (fun p => p.price * p.value)).sum / total_value
  let days_since_latest := minDays (purchases.map (fun p => p.days_since))
  { ticker := t
    insider_count := insider_count
    total_value := total_value
    avg_value := total_value / (purchases.length : ℚ)
    avg_purchase_price := weighted_price
    latest_purchase := maxDate (purchases.map (fun p => p.date))
    days_since_latest := days_since_latest
    freshness := freshnessLabel days_since_latest
    score := calculate_cluster_score purchases total_value insider_count days_since_latest
    purchases := purchases }

/-- `detect_cluster_buying` (`scraper.py` lines 314-386): group by ticker
in insertion order, keep groups with at least one purchase (always true),
aggregate, stable-sort by score descending. -/
def detect_cluster_buying (df : List Row) : List Cluster :=
  ((((group_tickers df).map (fun t => (t, purchases_for df t))).filter
      (fun e => 1 ≤ e.2.length)).map (fun e => mkCluster e.1 e.2)).mergeSort
    (fun a b => decide (b.score ≤ a.score))

/-- `save_opportunities` (`scraper.py` lines 443-481): keep the clusters
with `score >= 50`.  The source then repackages each survivor into an
output record copying `score` and the other fields unchanged; the
embedding returns the surviving clusters themselves. -/
def save_opportunities (clusters : List Cluster) : List Cluster :=
  clusters.filter (fun c => 50 ≤ c.score)

/-! ### Momentum / stage classifier (`asistente.py`) -/

/-- `momentum_config['early_max']` (`asistente.py` line 29). -/
def early_max : ℚ := 5

/-- `momentum_config['confirmed_max']` (`asistente.py` line 30). -/
def confirmed_max : ℚ := 15

/-- Stage assignment (`asistente.py` lines 154-171): the source compares
`momentum_pct <= early_max` first, splits on the sign, then
`momentum_pct <= confirmed_max`, else late. -/
def stageOf (momentum_pct : ℚ) : String :=
  if momentum_pct ≤ early_max then
    if 0 ≤ momentum_pct then "early_positive" else "early_negative"
  else if momentum_pct ≤ confirmed_max then "confirmed"
  else "late"

/-- Risk level, assigned in the same branches (`asistente.py` lines
154-171). -/
def riskOf (momentum_pct : ℚ) : String :=
  if momentum_pct ≤ early_max then
    if 0 ≤ momentum_pct then "medium" else "high"
  else if momentum_pct ≤ confirmed_max then "medium-low"
  else "high"

/-- An opportunity fed to the classifier: the source branches on the
record's `type` field being `'whale'` or `'cluster'`
(`asistente.py` lines 143-146). -/
inductive Opp
  | cluster (c : Cluster)
  | whale (w : WhaleOpp)
deriving DecidableEq

/-- `opportunity['ticker']`. -/
def Opp.tickerOf : Opp → String
  | .cluster c => c.ticker
  | .whale w => w.ticker

/-- The insider reference price (`asistente.py` lines 143-146):
`purchase_price` for whales, `avg_purchase_price` for clusters. -/
def Opp.refPrice : Opp → ℚ
  | .cluster c => c.avg_purchase_price
  | .whale w => w.purchase_price

/-- The record returned by the classifier (`asistente.py` lines 176-184).
The display roundings of `current_price`, `insider_price`, `momentum_pct`
(`round(_, 2)`) and the `stage_desc` / `strategy` fields (pure functions
of `stage` and the opportunity type, lines 186-230) are omitted; `stage`
and `risk_level` are computed from the exact momentum, as in the source. -/
structure MomentumData where
  current_price : ℚ
  insider_price : ℚ
  momentum_pct : ℚ
  stage : String
  risk_level : String
deriving DecidableEq

/-- `calculate_momentum_and_stage` (`asistente.py` lines 131-184).
`market_data` maps a ticker to its current price when the market lookup
succeeded (`ticker not in market_data` becomes `none`).  The source
returns `None` when the ticker is absent, the current price is
non-positive, or the reference price is non-positive; otherwise it
computes `momentum_pct = (current_price - insider_price) / insider_price
* 100` and stages it. -/
def calculate_momentum_and_stage (opp : Opp) (market_data : String → Option ℚ) :
    Option MomentumData :=
  match market_data opp.tickerOf with
  | none => none
  | some current_price =>
    if current_price ≤ 0 then none
    else
      let insider_price := opp.refPrice
      if insider_price ≤ 0 then none
      else
        let momentum_pct := (current_price - insider_price) / insider_price * 100
        some { current_price := current_price
               insider_price := insider_price
               momentum_pct := momentum_pct
               stage := stageOf momentum_pct
               risk_level := riskOf momentum_pct }

/-! ### Report builder (`asistente.py` lines 412-463) -/

/-- The fields of an enriched opportunity that the report builder reads:
its `type` tag, `stage`, `momentum_pct`, and the raw scores (`score` is
present on cluster records, `whale_score` on whale records; the source
reads them with `dict.get(_, 0)`). -/
structure Enriched where
  opp_type : String
  ticker : String
  stage : String
  momentum_pct : ℚ
  score : Option ℕ
  whale_score : Option ℕ
deriving DecidableEq

/-- The sort key of `top_research_targets` (`asistente.py` line 449):
`x.get('score', 0) if x['type'] == 'cluster' else x.get('whale_score', 0)`. -/
def research_key (e : Enriched) : ℕ :=
  if e.opp_type == "cluster" then e.score.getD 0 else e.whale_score.getD 0

/-- The bucket lists of the report (`asistente.py` lines 440-449).  The
summary-count block (lines 431-439) is omitted: no claim reads it. -/
structure Report where
  early_opportunities : List Enriched
  confirmed_opportunities : List Enriched
  late_opportunities : List Enriched
  whale_opportunities : List Enriched
  top_cluster_opportunities : List Enriched
  top_research_targets : List Enriched
deriving DecidableEq

/-- `generate_research_report` (`asistente.py` lines 412-463): partition
by stage and by type (lines 417-421), sort the early, confirmed and whale
lists by momentum descending (lines 424-426 — the late and cluster lists
are not sorted), truncate each bucket, and rank the combined top list by
the type-appropriate raw score (line 449). -/
def generate_research_report (enriched : List Enriched) : Report :=
  let early := enriched.filter
    (fun o => o.stage == "early_positive" || o.stage == "early_negative")
  let confirmed := enriched.filter (fun o => o.stage == "confirmed")
  let late := enriched.filter (fun o => o.stage == "late")
  let whales := enriched.filter (fun o => o.opp_type == "whale")
  let clusters := enriched.filter (fun o => o.opp_type == "cluster")
  let early_sorted := early.mergeSort (fun a b => decide (b.momentum_pct ≤ a.momentum_pct))
  let confirmed_sorted := confirmed.mergeSort (fun a b => decide (b.momentum_pct ≤ a.momentum_pct))
  let whales_sorted := whales.mergeSort (fun a b => decide (b.momentum_pct ≤ a.momentum_pct))
  { early_opportunities := early_sorted.take 10
    confirmed_opportunities := confirmed_sorted.take 10
    late_opportunities := late.take 5
    whale_opportunities := whales_sorted.take 5
    top_cluster_opportunities := clusters.take 10
    top_research_targets :=
      (enriched.mergeSort (fun a b => decide (research_key b ≤ research_key a))).take 15 }

/-! ### Concrete test data -/

/-- A single CEO purchase of $120M made 3 days ago (the whale scenario of
the specification). -/
def row_ceo : Row :=
  { filing_date := "2025-09-01", trade_date := "2025-08-29", ticker := "ACME"
    company_name := "Acme Corp", insider_name := "Jane Roe", title := "CEO"
    transaction_type := "P - Purchase", price := 50, qty := 2400000
    shares_owned := 10000000, ownership_change := 5
    transaction_value := 120000000, days_since_trade := 3 }

/-- A purchase filing sitting exactly at `whale_threshold - 1 = 98999999`
dollars: below the whale threshold, yet rejected by the cluster value
mask. -/
def row_boundary : Row :=
  { filing_date := "2025-09-01", trade_date := "2025-08-29", ticker := "BOLT"
    company_name := "Bolt Inc", insider_name := "Sam Poe", title := "CFO"
    transaction_type := "P - Purchase", price := 10, qty := 9899999
    shares_owned := 10000000, ownership_change := 5
    transaction_value := 98999999, days_since_trade := 3 }

/-- A mid-range CFO purchase ($2M at $10) that passes every cluster
filter. -/
def row_mid : Row :=
  { filing_date := "2025-09-01", trade_date := "2025-08-29", ticker := "CORE"
    company_name := "Core Labs", insider_name := "Ana Day", title := "CFO"
    transaction_type := "P - Purchase", price := 10, qty := 200000
    shares_owned := 1000000, ownership_change := 4
    transaction_value := 2000000, days_since_trade := 5 }

/-- A second purchase on the same ticker as `row_mid` ($1M at $20,
different insider). -/
def row_mid2 : Row :=
  { filing_date := "2025-09-02", trade_date := "2025-08-30", ticker := "CORE"
    company_name := "Core Labs", insider_name := "Ben Lee", title := "President"
    transaction_type := "P - Purchase", price := 20, qty := 50000
    shares_owned := 500000, ownership_change := 2
    transaction_value := 1000000, days_since_trade := 4 }

/-- A member purchase whose free-text title matches both the
CFO/chief-financial rule and the founder/co-founder rule. -/
def purchase_cfo_founder : Purchase :=
  { insider := "Kim Oda", title := "CFO and Co-Founder", value := 600000
    price := 10, date := "2025-08-29", days_since := 3, qty := 60000 }

/-- An enriched late-stage cluster with momentum 1%. -/
def enr_late1 : Enriched :=
  { opp_type := "cluster", ticker := "AAA", stage := "late"
    momentum_pct := 1, score := some 60, whale_score := none }

/-- An enriched late-stage cluster with momentum 2%, listed after
`enr_late1`. -/
def enr_late2 : Enriched :=
  { opp_type := "cluster", ticker := "BBB", stage := "late"
    momentum_pct := 2, score := some 70, whale_score := none }

/-- A market-price table for the concrete tickers. -/
def mkt : String → Option ℚ :=
  fun t => if t == "ACME" then some 55 else none

/-- A hand-built cluster record sitting exactly on score 65 (a single $2M
CFO purchase, 5 days old: 20 + 10 + 20 + 25 = 75 capped at 100 would be
75; the literal stores the fields a detection run would produce, with
score 65 as a sample above the floor). -/
def cluster_lit : Cluster :=
  { ticker := "CORE", insider_count := 1, total_value := 2000000
    avg_value := 2000000, avg_purchase_price := 10
    latest_purchase := "2025-08-29", days_since_latest := 5
    freshness := "fresh", score := 65, purchases := [mkPurchase row_mid] }

/-! ### Helper lemmas -/

/-- The whale boundary constant, evaluated. -/
theorem whale_max_value_eq : whale_threshold - 1 = (98999999 : ℚ) := by
  norm_num [whale_threshold]

theorem whale_max_value_lt : whale_threshold - 1 < whale_threshold := by
  norm_num [whale_threshold]

/-- A dedup pass returns a sublist of its input. -/
theorem dedupByAux_sublist {α κ : Type} [DecidableEq κ] (key : α → κ) :
    ∀ (l : List α) (seen : List κ), List.Sublist (dedupByAux key l seen) l
  | [], _ => List.Sublist.refl []
  | a :: as, seen => by
      rw [dedupByAux]
      split
      · exact (dedupByAux_sublist key as seen).cons a
      · exact (dedupByAux_sublist key as (key a :: seen)).cons₂ a

theorem drop_duplicates_sublist {α κ : Type} [DecidableEq κ] (key : α → κ)
    (l : List α) : List.Sublist (drop_duplicates key l) l :=
  dedupByAux_sublist key l []

/-- A dedup pass is the identity on a list whose keys are pairwise
distinct and disjoint from the seen set. -/
theorem dedupByAux_eq_self {α κ : Type} [DecidableEq κ] (key : α → κ) :
    ∀ (l : List α) (seen : List κ),
      l.Pairwise (fun a b => key a ≠ key b) →
      (∀ a ∈ l, key a ∉ seen) →
      dedupByAux key l seen = l
  | [], _, _, _ => rfl
  | a :: as, seen, hpw, hseen => by
      rw [dedupByAux, if_neg (hseen a (List.mem_cons_self a as))]
      refine congrArg (a :: ·) (dedupByAux_eq_self key as (key a :: seen)
        (List.Pairwise.of_cons hpw) ?_)
      intro b hb
      rw [List.mem_cons]
      push_neg
      exact ⟨Ne.symm ((List.pairwise_cons.mp hpw).1 b hb), hseen b (List.mem_cons_of_mem a hb)⟩

/-- After a dedup pass, each key occurs at most once; keys already seen do
not occur at all. -/
theorem dedupByAux_countP {α κ : Type} [DecidableEq κ] (key : α → κ) (k : κ) :
    ∀ (l : List α) (seen : List κ),
      (k ∈ seen → (dedupByAux key l seen).countP (fun a => decide (key a = k)) = 0) ∧
      (dedupByAux key l seen).countP (fun a => decide (key a = k)) ≤ 1
  | [], _ => by simp [dedupByAux]
  | a :: as, seen => by
      rw [dedupByAux]
      split
      · rename_i hmem
        refine ⟨(dedupByAux_countP key k as seen).1, (dedupByAux_countP key k as seen).2⟩
      · rename_i hmem
        rw [List.countP_cons]
        constructor
        · intro hk
          have h0 := (dedupByAux_countP key k as (key a :: seen)).1
            (List.mem_cons_of_mem _ hk)
          have hne : ¬ (key a = k) := fun h => hmem (h ▸ hk)
          simp [h0, hne]
        · by_cases hak : key a = k
          · subst hak
            have h0 := (dedupByAux_countP key (key a) as (key a :: seen)).1
              (List.mem_cons_self (key a) seen)
            simp [h0]
          · have h1 := (dedupByAux_countP key k as (key a :: seen)).2
            rw [if_neg (by simp [hak])]
            omega

/-- Membership in the five-mask prefilter, unfolded. -/
theorem mem_cluster_prefilter {df : List Row} {r : Row} :
    r ∈ cluster_prefilter df ↔
      r ∈ df ∧ is_purchase_row r = true ∧ cluster_value_ok r = true ∧
      relevant_title_ok r = true ∧ ticker_len_ok r = true ∧ price_ok r = true := by
  simp only [cluster_prefilter, List.mem_filter]
  tauto

/-- Membership in the whale output, unfolded. -/
theorem mem_detect_whale {df : List Row} {o : WhaleOpp} :
    o ∈ detect_whale_trades df ↔
      ∃ r, r ∈ df ∧ whaleCond r = true ∧ o = mkWhaleOpp r := by
  simp only [detect_whale_trades, List.mem_mergeSort, List.mem_map, List.mem_filter]
  constructor
  · rintro ⟨r, ⟨hr, hc⟩, he⟩
    exact ⟨r, hr, hc, he.symm⟩
  · rintro ⟨r, hr, hc, he⟩
    exact ⟨r, ⟨hr, hc⟩, he.symm⟩

/-- Membership in the cluster output, unfolded. -/
theorem mem_detect_cluster {df : List Row} {c : Cluster} :
    c ∈ detect_cluster_buying df ↔
      ∃ t, t ∈ group_tickers df ∧ 1 ≤ (purchases_for df t).length ∧
        c = mkCluster t (purchases_for df t) := by
  simp only [detect_cluster_buying, List.mem_mergeSort, List.mem_filter, List.mem_map,
    decide_eq_true_eq]
  constructor
  · rintro ⟨x, ⟨⟨t0, ht0, rfl⟩, hlen⟩, he⟩
    exact ⟨t0, ht0, hlen, he.symm⟩
  · rintro ⟨t, ht, hlen, he⟩
    exact ⟨⟨t, purchases_for df t⟩, ⟨⟨t, ht, rfl⟩, hlen⟩, he.symm⟩

/-- Every member purchase of a detected cluster comes from a row of the
input list that it projects. -/
theorem mem_purchases_for {df : List Row} {t : String} {p : Purchase}
    (hp : p ∈ purchases_for df t) : ∃ r, r ∈ df ∧ p = mkPurchase r := by
  simp only [purchases_for, List.mem_map, List.mem_filter] at hp
  obtain ⟨r, ⟨hr, _⟩, he⟩ := hp
  exact ⟨r, hr, he.symm⟩

/-- The five-mask prefilter returns a sublist of the input list. -/
theorem cluster_prefilter_sublist (df : List Row) :
    List.Sublist (cluster_prefilter df) df := by
  have s1 : List.Sublist (df.filter is_purchase_row) df := List.filter_sublist df
  have s2 := (List.filter_sublist (p := cluster_value_ok)
    (df.filter is_purchase_row)).trans s1
  have s3 := (List.filter_sublist (p := relevant_title_ok) _).trans s2
  have s4 := (List.filter_sublist (p := ticker_len_ok) _).trans s3
  exact (List.filter_sublist _).trans s4

/-- Rows surviving `apply_intelligent_filters` satisfy the value mask. -/
theorem value_ok_of_mem_filters {df : List Row} {r : Row}
    (h : r ∈ apply_intelligent_filters df) :
    min_purchase_value ≤ |r.transaction_value| ∧
    |r.transaction_value| < whale_threshold - 1 := by
  have hpre := (dedupByAux_sublist dup_key (cluster_prefilter df) []).subset h
  have hval := (mem_cluster_prefilter.mp hpre).2.2.1
  simpa only [cluster_value_ok, Bool.and_eq_true, decide_eq_true_eq] using hval

/-- The value mask with the boundary constant evaluated (kernel-friendly
form of `cluster_value_ok`). -/
theorem cluster_value_ok_eval :
    cluster_value_ok = fun r =>
      (decide (min_purchase_value ≤ |r.transaction_value|) &&
       decide (|r.transaction_value| < (98999999 : ℚ))) := by
  funext r
  rw [cluster_value_ok, whale_max_value_eq]

/-! ### Claims -/

/-- C1: every filing that passes the whale mask (value at or above the
whale threshold, purchase, whale-allowlist title, valid ticker, positive
price) yields a record in the whale opportunity set, is dropped by the
cluster filters, and no member purchase of any detected cluster ever
carries a whale-range value — the two detectors are mutually exclusive
over the transaction-value axis. -/
theorem whale_cluster_exclusion (df : List Row) (r : Row)
    (hmem : r ∈ df) (hw : whaleCond r = true) :
    mkWhaleOpp r ∈ detect_whale_trades df ∧
    r ∉ apply_intelligent_filters df ∧
    ∀ c ∈ detect_cluster_buying (apply_intelligent_filters df),
      ∀ p ∈ c.purchases, p.value < whale_threshold := by
  have hthr : whale_threshold ≤ |r.transaction_value| := by
    simp only [whaleCond, Bool.and_eq_true, decide_eq_true_eq] at hw
    exact hw.1.1.1.1
  refine ⟨mem_detect_whale.mpr ⟨r, hmem, hw, rfl⟩, ?_, ?_⟩
  · intro hin
    have hval := (value_ok_of_mem_filters hin).2
    have := whale_max_value_lt
    linarith
  · intro c hc p hp
    obtain ⟨t, ht, hlen, rfl⟩ := mem_detect_cluster.mp hc
    obtain ⟨r', hr', rfl⟩ := mem_purchases_for (t := t) hp
    have hval := (value_ok_of_mem_filters hr').2
    have := whale_max_value_lt
    show |r'.transaction_value| < whale_threshold
    linarith

/-- Witness for C1 at the $120M CEO filing. -/
theorem whale_cluster_exclusion_witness :
    mkWhaleOpp row_ceo ∈ detect_whale_trades [row_ceo] ∧
    row_ceo ∉ apply_intelligent_filters [row_ceo] ∧
    ∀ c ∈ detect_cluster_buying (apply_intelligent_filters [row_ceo]),
      ∀ p ∈ c.purchases, p.value < whale_threshold :=
  whale_cluster_exclusion [row_ceo] row_ceo (List.mem_singleton.mpr rfl) (by decide)

/-- Counterexample for C2: the filing of exactly $98,999,999 =
`whale_threshold - 1` passes the purchase, title, ticker and price masks
and lies inside the claimed interval `[min_purchase_value,
whale_threshold)`, yet the cluster filter rejects it (the source compares
against `whale_threshold - 1`, exclusive). -/
theorem cluster_range_cex :
    is_purchase_row row_boundary = true ∧
    relevant_title_ok row_boundary = true ∧
    ticker_len_ok row_boundary = true ∧
    price_ok row_boundary = true ∧
    min_purchase_value ≤ |row_boundary.transaction_value| ∧
    |row_boundary.transaction_value| < whale_threshold ∧
    row_boundary ∉ apply_intelligent_filters [row_boundary] := by
  refine ⟨by decide, by decide, by decide, by decide, by decide, by decide, ?_⟩
  intro h
  have hval := (value_ok_of_mem_filters h).2
  rw [whale_max_value_eq] at hval
  have : |row_boundary.transaction_value| = (98999999 : ℚ) := by decide
  linarith [this ▸ hval]

/-- C2 as amended: a purchase filing that passes the role, ticker and
price masks (in a frame with no exact duplicates) is admitted to cluster
grouping iff its absolute transaction value lies in
`[min_purchase_value, whale_threshold - 1)` — the code subtracts one from
the threshold before the strict comparison, so `whale_threshold - 1`
itself is also excluded. -/
theorem cluster_range_amended (df : List Row) (r : Row) (hmem : r ∈ df)
    (hnodup : df.Pairwise (fun a b => dup_key a ≠ dup_key b))
    (hp : is_purchase_row r = true) (ht : relevant_title_ok r = true)
    (hk : ticker_len_ok r = true) (hpr : price_ok r = true) :
    r ∈ apply_intelligent_filters df ↔
      (min_purchase_value ≤ |r.transaction_value| ∧
       |r.transaction_value| < whale_threshold - 1) := by
  constructor
  · exact value_ok_of_mem_filters
  · intro hval
    have hval' : cluster_value_ok r = true := by
      simp only [cluster_value_ok, Bool.and_eq_true, decide_eq_true_eq]
      exact hval
    have hinpre : r ∈ cluster_prefilter df :=
      mem_cluster_prefilter.mpr ⟨hmem, hp, hval', ht, hk, hpr⟩
    have hpw : (cluster_prefilter df).Pairwise (fun a b => dup_key a ≠ dup_key b) :=
      List.Pairwise.sublist (cluster_prefilter_sublist df) hnodup
    rw [apply_intelligent_filters, drop_duplicates,
      dedupByAux_eq_self dup_key _ [] hpw (by simp)]
    exact hinpre

/-- Witness for C2 (amended) at a $2M CFO filing. -/
theorem cluster_range_amended_witness :
    row_mid ∈ apply_intelligent_filters [row_mid] ↔
      (min_purchase_value ≤ |row_mid.transaction_value| ∧
       |row_mid.transaction_value| < whale_threshold - 1) :=
  cluster_range_amended [row_mid] row_mid (List.mem_singleton.mpr rfl)
    (List.pairwise_singleton _ _) (by decide) (by decide) (by decide) (by decide)

/-- C3: every whale record's score is
`min(100, 40 + freshness_contribution + confidence_contribution)` with
freshness 30/20/10 at the 7/21-day boundaries and confidence 30 for
CEO-class titles, 25 for 10%-owner titles, else 15; the single $120M CEO
purchase made 3 days ago is detected, fresh, high-confidence, and scores
exactly 100. -/
theorem whale_score_formula :
    (∀ (df : List Row) (o : WhaleOpp), o ∈ detect_whale_trades df →
      o.whale_score = min 100 (40 +
        (if o.days_since_trade ≤ 7 then 30
         else if o.days_since_trade ≤ 21 then 20 else 10) +
        (if matchesAny (lowerStr o.title)
              ["ceo", "chief executive", "founder", "co-founder"] then 30
         else if strContains (lowerStr o.title) "10%" then 25 else 15))) ∧
    detect_whale_trades [row_ceo] = [mkWhaleOpp row_ceo] ∧
    (mkWhaleOpp row_ceo).freshness = "fresh" ∧
    (mkWhaleOpp row_ceo).confidence = "high" ∧
    (mkWhaleOpp row_ceo).whale_score = 100 := by
  refine ⟨?_, ?_, by decide, by decide, by decide⟩
  · intro df o ho
    obtain ⟨r, -, -, rfl⟩ := mem_detect_whale.mp ho
    simp only [mkWhaleOpp, whale_score, freshness_score, confidence_score]
    rw [Nat.min_comm]
  · have h : List.filter whaleCond [row_ceo] = [row_ceo] := by decide
    rw [detect_whale_trades, h, List.map_cons, List.map_nil, List.mergeSort_singleton]

/-- Witness for C3 at the $120M CEO filing. -/
theorem whale_score_formula_witness :
    (mkWhaleOpp row_ceo).whale_score = min 100 (40 +
      (if (mkWhaleOpp row_ceo).days_since_trade ≤ 7 then 30
       else if (mkWhaleOpp row_ceo).days_since_trade ≤ 21 then 20 else 10) +
      (if matchesAny (lowerStr (mkWhaleOpp row_ceo).title)
            ["ceo", "chief executive", "founder", "co-founder"] then 30
       else if strContains (lowerStr (mkWhaleOpp row_ceo).title) "10%" then 25
       else 15)) :=
  whale_score_formula.1 [row_ceo] (mkWhaleOpp row_ceo)
    (by rw [whale_score_formula.2.1]; exact List.mem_singleton.mpr rfl)

/-- C8: no cluster with score below 50 survives `save_opportunities`, and
every whale score is at least 65 = 40 + 10 + 15 (hence above the cluster
acceptance floor of 50). -/
theorem score_floors :
    (∀ (cs : List Cluster) (c : Cluster), c ∈ save_opportunities cs → 50 ≤ c.score) ∧
    (∀ (df : List Row) (o : WhaleOpp), o ∈ detect_whale_trades df →
      65 ≤ o.whale_score ∧ 50 < o.whale_score) := by
  constructor
  · intro cs c hc
    have h := (List.mem_filter.mp hc).2
    simpa using h
  · intro df o ho
    obtain ⟨r, -, -, rfl⟩ := mem_detect_whale.mp ho
    show 65 ≤ whale_score r.days_since_trade r.title ∧
      50 < whale_score r.days_since_trade r.title
    have hf : 10 ≤ freshness_score r.days_since_trade := by
      unfold freshness_score; split_ifs <;> omega
    have hc : 15 ≤ confidence_score r.title := by
      unfold confidence_score; split_ifs <;> omega
    unfold whale_score
    omega

/-- Witness for C8: a score-65 cluster survives the floor, and the $120M
CEO whale clears it. -/
theorem score_floors_witness :
    50 ≤ cluster_lit.score ∧
    65 ≤ (mkWhaleOpp row_ceo).whale_score ∧
    50 < (mkWhaleOpp row_ceo).whale_score := by
  refine ⟨score_floors.1 [cluster_lit] cluster_lit (by decide), ?_⟩
  refine score_floors.2 [row_ceo] (mkWhaleOpp row_ceo) ?_
  have h : List.filter whaleCond [row_ceo] = [row_ceo] := by decide
  rw [detect_whale_trades, h, List.map_cons, List.map_nil, List.mergeSort_singleton]
  exact List.mem_singleton.mpr rfl

/-- C10: after `apply_intelligent_filters` each
(ticker, insider, date, value) key occurs at most once, while the whale
detector emits exactly one record per qualifying row; concretely, a
duplicated $2M filing collapses to one row on the cluster side, and a
duplicated $120M whale filing yields two whale records. -/
theorem dedup_asymmetry :
    (∀ (df : List Row) (k : String × String × String × ℚ),
      (apply_intelligent_filters df).countP (fun r => decide (dup_key r = k)) ≤ 1) ∧
    (∀ df : List Row,
      (detect_whale_trades df).length = (df.filter whaleCond).length) ∧
    apply_intelligent_filters [row_mid, row_mid] = [row_mid] ∧
    (detect_whale_trades [row_ceo, row_ceo]).length = 2 := by
  refine ⟨?_, ?_, ?_, ?_⟩
  · intro df k
    exact (dedupByAux_countP dup_key k (cluster_prefilter df) []).2
  · intro df
    rw [detect_whale_trades, List.length_mergeSort, List.length_map]
  · rw [apply_intelligent_filters, cluster_prefilter, cluster_value_ok_eval]
    decide
  · rw [detect_whale_trades, List.length_mergeSort, List.length_map]
    decide

/-- A left max-fold is at least its seed. -/
theorem seed_le_foldl_max : ∀ (l : List ℕ) (b : ℕ), b ≤ l.foldl max b
  | [], _ => le_refl _
  | x :: xs, b => le_trans (le_max_left b x) (seed_le_foldl_max xs (max b x))

/-- A left max-fold dominates every list element. -/
theorem mem_le_foldl_max : ∀ (l : List ℕ) (b a : ℕ), a ∈ l → a ≤ l.foldl max b
  | x :: xs, b, a, h => by
      rcases List.mem_cons.mp h with rfl | h
      · exact le_trans (le_max_right b a) (seed_le_foldl_max xs (max b a))
      · exact mem_le_foldl_max xs (max b x) a h

/-- A left max-fold equals its seed or one of the elements. -/
theorem foldl_max_eq_seed_or_mem :
    ∀ (l : List ℕ) (b : ℕ), l.foldl max b = b ∨ l.foldl max b ∈ l
  | [], _ => Or.inl rfl
  | x :: xs, b => by
      rcases foldl_max_eq_seed_or_mem xs (max b x) with h | h
      · rcases max_choice b x with hb | hx
        · exact Or.inl (by rw [List.foldl_cons, h, hb])
        · exact Or.inr (by rw [List.foldl_cons, h, hx]; exact List.mem_cons_self x xs)
      · exact Or.inr (List.mem_cons_of_mem x h)

/-- The insider-quality fold, rephrased over the mapped point list. -/
theorem insider_quality_eq_foldl :
    ∀ (ps : List Purchase) (b : ℕ),
      ps.foldl (fun m p => max m (insider_points p.title)) b =
        (ps.map (fun p => insider_points p.title)).foldl max b
  | [], _ => rfl
  | p :: ps, b => insider_quality_eq_foldl ps (max b (insider_points p.title))

/-- Every title is worth at least 8 points. -/
theorem insider_points_ge_8 (t : String) : 8 ≤ insider_points t := by
  unfold insider_points
  simp only []
  split_ifs <;> omega

/-- Counterexample for C7: the member title "CFO and Co-Founder" contains
both "founder" and "co-founder", yet the `elif` chain tests
CFO/chief-financial first, so the member contributes 20, not 25 (a
single-member $600K cluster, 3 days old, then scores 10+10+20+25 = 65
rather than 70). -/
theorem insider_quality_cex :
    strContains (lowerStr purchase_cfo_founder.title) "founder" = true ∧
    strContains (lowerStr purchase_cfo_founder.title) "co-founder" = true ∧
    insider_points purchase_cfo_founder.title = 20 ∧
    insider_quality [purchase_cfo_founder] = 20 ∧
    calculate_cluster_score [purchase_cfo_founder] 600000 1 3 = 65 := by
  decide

/-- C7 as amended: the insider-quality component of the cluster score is
the maximum over member filings of an ordered first-match rubric —
CEO/chief-executive → 25, else CFO/chief-financial → 20, else
founder/co-founder → 25, else 10%-owner → 20, else president/chairman →
15, else 8.  A founder/co-founder title therefore contributes 25 only
when it does not also match the CFO/chief-financial rule, which is tested
first. -/
theorem insider_quality_amended :
    (∀ (ps : List Purchase) (p : Purchase), p ∈ ps →
      insider_points p.title ≤ insider_quality ps) ∧
    (∀ ps : List Purchase, ps ≠ [] →
      ∃ p ∈ ps, insider_quality ps = insider_points p.title) ∧
    (∀ (ps : List Purchase) (tv : ℚ) (ic : ℕ) (d : Int),
      calculate_cluster_score ps tv ic d =
        min (value_points tv + cluster_effect_points ic +
             insider_quality ps + freshness_bonus d) 100) ∧
    (∀ t, matchesAny (lowerStr t) ["ceo", "chief executive"] = true →
      insider_points t = 25) ∧
    (∀ t, matchesAny (lowerStr t) ["ceo", "chief executive"] = false →
      matchesAny (lowerStr t) ["cfo", "chief financial"] = true →
      insider_points t = 20) ∧
    (∀ t, matchesAny (lowerStr t) ["ceo", "chief executive"] = false →
      matchesAny (lowerStr t) ["cfo", "chief financial"] = false →
      matchesAny (lowerStr t) ["founder", "co-founder"] = true →
      insider_points t = 25) ∧
    (∀ t, matchesAny (lowerStr t) ["ceo", "chief executive"] = false →
      matchesAny (lowerStr t) ["cfo", "chief financial"] = false →
      matchesAny (lowerStr t) ["founder", "co-founder"] = false →
      strContains (lowerStr t) "10%" = true →
      insider_points t = 20) ∧
    (∀ t, matchesAny (lowerStr t) ["ceo", "chief executive"] = false →
      matchesAny (lowerStr t) ["cfo", "chief financial"] = false →
      matchesAny (lowerStr t) ["founder", "co-founder"] = false →
      strContains (lowerStr t) "10%" = false →
      matchesAny (lowerStr t) ["president", "chairman"] = true →
      insider_points t = 15) ∧
    (∀ t, matchesAny (lowerStr t) ["ceo", "chief executive"] = false →
      matchesAny (lowerStr t) ["cfo", "chief financial"] = false →
      matchesAny (lowerStr t) ["founder", "co-founder"] = false →
      strContains (lowerStr t) "10%" = false →
      matchesAny (lowerStr t) ["president", "chairman"] = false →
      insider_points t = 8) := by
  refine ⟨?_, ?_, ?_, ?_, ?_, ?_, ?_, ?_, ?_⟩
  · intro ps p hp
    rw [insider_quality, insider_quality_eq_foldl]
    exact mem_le_foldl_max _ 0 _ (List.mem_map_of_mem _ hp)
  · intro ps hne
    rw [insider_quality, insider_quality_eq_foldl]
    rcases foldl_max_eq_seed_or_mem (ps.map (fun p => insider_points p.title)) 0 with h | h
    · obtain ⟨p, hp⟩ := List.exists_mem_of_ne_nil ps hne
      have h8 := insider_points_ge_8 p.title
      have hle := mem_le_foldl_max (ps.map (fun p => insider_points p.title)) 0 _
        (List.mem_map_of_mem _ hp)
      omega
    · obtain ⟨p, hp, he⟩ := List.mem_map.mp h
      exact ⟨p, hp, he.symm⟩
  · intro ps tv ic d
    rfl
  · intro t h
    simp [insider_points, h]
  · intro t h1 h2
    simp [insider_points, h1, h2]
  · intro t h1 h2 h3
    simp [insider_points, h1, h2, h3]
  · intro t h1 h2 h3 h4
    simp [insider_points, h1, h2, h3, h4]
  · intro t h1 h2 h3 h4 h5
    simp [insider_points, h1, h2, h3, h4, h5]
  · intro t h1 h2 h3 h4 h5
    simp [insider_points, h1, h2, h3, h4, h5]

/-- Witness for C7 (amended): "Co-Founder" alone (no CFO match)
contributes 25, and the quality component of a singleton member list
attains it. -/
theorem insider_quality_amended_witness :
    insider_points "Co-Founder" = 25 ∧
    ∃ p ∈ [purchase_cfo_founder],
      insider_quality [purchase_cfo_founder] = insider_points p.title :=
  ⟨insider_quality_amended.2.2.2.2.2.1 "Co-Founder" (by decide) (by decide) (by decide),
   insider_quality_amended.2.1 [purchase_cfo_founder] (by decide)⟩

/-- A nonempty member list has a maximum-price member. -/
theorem exists_max_price :
    ∀ (l : List Purchase), l ≠ [] → ∃ pm ∈ l, ∀ p ∈ l, p.price ≤ pm.price := by
  intro l
  induction l with
  | nil => intro h; exact absurd rfl h
  | cons q ps ih =>
    intro _
    rcases eq_or_ne ps [] with rfl | hne
    · refine ⟨q, List.mem_singleton.mpr rfl, ?_⟩
      intro p hp
      rw [List.mem_singleton.mp hp]
    · obtain ⟨pm, hpm, hmax⟩ := ih hne
      by_cases hc : pm.price ≤ q.price
      · refine ⟨q, List.mem_cons_self q ps, ?_⟩
        intro p hp
        rcases List.mem_cons.mp hp with rfl | hp
        · exact le_refl _
        · exact (hmax p hp).trans hc
      · refine ⟨pm, List.mem_cons_of_mem q hpm, ?_⟩
        intro p hp
        rcases List.mem_cons.mp hp with rfl | hp
        · exact le_of_not_le hc
        · exact hmax p hp

/-- A nonempty member list has a minimum-price member. -/
theorem exists_min_price :
    ∀ (l : List Purchase), l ≠ [] → ∃ pm ∈ l, ∀ p ∈ l, pm.price ≤ p.price := by
  intro l
  induction l with
  | nil => intro h; exact absurd rfl h
  | cons q ps ih =>
    intro _
    rcases eq_or_ne ps [] with rfl | hne
    · refine ⟨q, List.mem_singleton.mpr rfl, ?_⟩
      intro p hp
      rw [List.mem_singleton.mp hp]
    · obtain ⟨pm, hpm, hmin⟩ := ih hne
      by_cases hc : q.price ≤ pm.price
      · refine ⟨q, List.mem_cons_self q ps, ?_⟩
        intro p hp
        rcases List.mem_cons.mp hp with rfl | hp
        · exact le_refl _
        · exact hc.trans (hmin p hp)
      · refine ⟨pm, List.mem_cons_of_mem q hpm, ?_⟩
        intro p hp
        rcases List.mem_cons.mp hp with rfl | hp
        · exact le_of_not_le hc
        · exact hmin p hp

/-- The summed member values are nonnegative when each is positive. -/
theorem sum_values_nonneg :
    ∀ (l : List Purchase), (∀ p ∈ l, 0 < p.value) →
      0 ≤ (l.map (fun p => p.value)).sum := by
  intro l
  induction l with
  | nil => intro _; simp
  | cons q ps ih =>
    intro h
    rw [List.map_cons, List.sum_cons]
    have h1 := h q (List.mem_cons_self q ps)
    have h2 := ih (fun p hp => h p (List.mem_cons_of_mem q hp))
    linarith

/-- The summed member values are positive for a nonempty member list. -/
theorem sum_values_pos (l : List Purchase) (hne : l ≠ [])
    (h : ∀ p ∈ l, 0 < p.value) : 0 < (l.map (fun p => p.value)).sum := by
  cases l with
  | nil => exact absurd rfl hne
  | cons q ps =>
    rw [List.map_cons, List.sum_cons]
    have h1 := h q (List.mem_cons_self q ps)
    have h2 := sum_values_nonneg ps (fun p hp => h p (List.mem_cons_of_mem q hp))
    linarith

/-- C6: for every detected cluster whose member value weights are all
positive, `avg_purchase_price` equals Σ(price·value)/Σ(value) over the
members, and this value-weighted mean lies between the minimum and the
maximum member price (both inclusive). -/
theorem weighted_price_bounds (df : List Row) (c : Cluster)
    (hc : c ∈ detect_cluster_buying df)
    (hpos : ∀ p ∈ c.purchases, 0 < p.value) :
    c.avg_purchase_price =
      (c.purchases.map (fun p => p.price * p.value)).sum /
        (c.purchases.map (fun p => p.value)).sum ∧
    (∃ p ∈ c.purchases, p.price ≤ c.avg_purchase_price) ∧
    (∃ p ∈ c.purchases, c.avg_purchase_price ≤ p.price) := by
  obtain ⟨t, ht, hlen, rfl⟩ := mem_detect_cluster.mp hc
  have hposl : ∀ p ∈ purchases_for df t, 0 < p.value := hpos
  have hne : purchases_for df t ≠ [] := by
    intro h
    rw [h] at hlen
    simp at hlen
  have hW : 0 < ((purchases_for df t).map (fun p => p.value)).sum :=
    sum_values_pos _ hne hposl
  refine ⟨rfl, ?_, ?_⟩
  · obtain ⟨pl, hpl, hmin⟩ := exists_min_price _ hne
    refine ⟨pl, hpl, ?_⟩
    show pl.price ≤ ((purchases_for df t).map (fun p => p.price * p.value)).sum /
      ((purchases_for df t).map (fun p => p.value)).sum
    rw [le_div_iff₀ hW]
    calc pl.price * ((purchases_for df t).map (fun p => p.value)).sum
        = ((purchases_for df t).map (fun p => pl.price * p.value)).sum :=
          (List.sum_map_mul_left _ _ _).symm
      _ ≤ ((purchases_for df t).map (fun p => p.price * p.value)).sum :=
          List.sum_le_sum (fun p hp =>
            mul_le_mul_of_nonneg_right (hmin p hp) (le_of_lt (hposl p hp)))
  · obtain ⟨pm, hpm, hmax⟩ := exists_max_price _ hne
    refine ⟨pm, hpm, ?_⟩
    show ((purchases_for df t).map (fun p => p.price * p.value)).sum /
      ((purchases_for df t).map (fun p => p.value)).sum ≤ pm.price
    rw [div_le_iff₀ hW]
    calc ((purchases_for df t).map (fun p => p.price * p.value)).sum
        ≤ ((purchases_for df t).map (fun p => pm.price * p.value)).sum :=
          List.sum_le_sum (fun p hp =>
            mul_le_mul_of_nonneg_right (hmax p hp) (le_of_lt (hposl p hp)))
      _ = pm.price * ((purchases_for df t).map (fun p => p.value)).sum :=
          List.sum_map_mul_left _ _ _

/-- Witness for C6 at the two-member CORE cluster ($2M at $10, $1M at
$20). -/
theorem weighted_price_bounds_witness :
    (mkCluster "CORE" (purchases_for [row_mid, row_mid2] "CORE")).avg_purchase_price =
      ((mkCluster "CORE" (purchases_for [row_mid, row_mid2] "CORE")).purchases.map
        (fun p => p.price * p.value)).sum /
      ((mkCluster "CORE" (purchases_for [row_mid, row_mid2] "CORE")).purchases.map
        (fun p => p.value)).sum ∧
    (∃ p ∈ (mkCluster "CORE" (purchases_for [row_mid, row_mid2] "CORE")).purchases,
      p.price ≤ (mkCluster "CORE" (purchases_for [row_mid, row_mid2] "CORE")).avg_purchase_price) ∧
    (∃ p ∈ (mkCluster "CORE" (purchases_for [row_mid, row_mid2] "CORE")).purchases,
      (mkCluster "CORE" (purchases_for [row_mid, row_mid2] "CORE")).avg_purchase_price ≤ p.price) :=
  weighted_price_bounds [row_mid, row_mid2]
    (mkCluster "CORE" (purchases_for [row_mid, row_mid2] "CORE"))
    (mem_detect_cluster.mpr ⟨"CORE", by decide, by decide, rfl⟩)
    (by decide)

/-- A stable descending sort by a key yields a list that is pairwise
non-increasing in that key. -/
theorem pairwise_mergeSort_desc {α β : Type} [LinearOrder β] (f : α → β) (l : List α) :
    (l.mergeSort (fun a b => decide (f b ≤ f a))).Pairwise (fun a b => f b ≤ f a) := by
  have h : (l.mergeSort (fun a b => decide (f b ≤ f a))).Pairwise
      (fun a b => decide (f b ≤ f a) = true) :=
    List.sorted_mergeSort
      (by
        intro a b c hab hbc
        simp only [decide_eq_true_eq] at *
        exact le_trans hbc hab)
      (by
        intro a b
        simp only [Bool.or_eq_true, decide_eq_true_eq]
        exact le_total (f b) (f a))
      l
  exact h.imp (fun hab => of_decide_eq_true hab)

/-- Counterexample for C9: two late-stage enriched opportunities listed in
ascending momentum order (1% then 2%) come back from the report builder in
that same order — the late bucket is not sorted by momentum descending
(the source sorts only the early, confirmed and whale lists). -/
theorem report_late_unsorted_cex :
    (generate_research_report [enr_late1, enr_late2]).late_opportunities =
      [enr_late1, enr_late2] ∧
    enr_late1.momentum_pct < enr_late2.momentum_pct ∧
    enr_late1.stage = "late" ∧ enr_late2.stage = "late" := by
  refine ⟨?_, by decide, by decide, by decide⟩
  simp [generate_research_report, enr_late1, enr_late2]

/-- C9 as amended: the report builder partitions the enriched set into
bounded buckets (10 early, 10 confirmed, 5 late, 5 whale, 10 cluster-top,
15 combined-top); the early, confirmed and whale buckets are ordered by
momentum descending and the combined top list by the type-appropriate raw
score descending, while the late and cluster-top buckets preserve the
input order of the enriched list (they are truncated but not sorted). -/
theorem report_buckets_amended (enr : List Enriched) :
    (generate_research_report enr).early_opportunities.length ≤ 10 ∧
    (generate_research_report enr).confirmed_opportunities.length ≤ 10 ∧
    (generate_research_report enr).late_opportunities.length ≤ 5 ∧
    (generate_research_report enr).whale_opportunities.length ≤ 5 ∧
    (generate_research_report enr).top_cluster_opportunities.length ≤ 10 ∧
    (generate_research_report enr).top_research_targets.length ≤ 15 ∧
    (generate_research_report enr).early_opportunities.Pairwise
      (fun a b => b.momentum_pct ≤ a.momentum_pct) ∧
    (generate_research_report enr).confirmed_opportunities.Pairwise
      (fun a b => b.momentum_pct ≤ a.momentum_pct) ∧
    (generate_research_report enr).whale_opportunities.Pairwise
      (fun a b => b.momentum_pct ≤ a.momentum_pct) ∧
    (generate_research_report enr).top_research_targets.Pairwise
      (fun a b => research_key b ≤ research_key a) ∧
    (generate_research_report enr).late_opportunities =
      (enr.filter (fun o => o.stage == "late")).take 5 ∧
    (generate_research_report enr).top_cluster_opportunities =
      (enr.filter (fun o => o.opp_type == "cluster")).take 10 := by
  refine ⟨List.length_take_le _ _, List.length_take_le _ _, List.length_take_le _ _,
    List.length_take_le _ _, List.length_take_le _ _, List.length_take_le _ _,
    ?_, ?_, ?_, ?_, rfl, rfl⟩
  · exact List.Pairwise.sublist (List.take_sublist _ _)
      (pairwise_mergeSort_desc (fun e : Enriched => e.momentum_pct) _)
  · exact List.Pairwise.sublist (List.take_sublist _ _)
      (pairwise_mergeSort_desc (fun e : Enriched => e.momentum_pct) _)
  · exact List.Pairwise.sublist (List.take_sublist _ _)
      (pairwise_mergeSort_desc (fun e : Enriched => e.momentum_pct) _)
  · exact List.Pairwise.sublist (List.take_sublist _ _)
      (pairwise_mergeSort_desc research_key _)

/-- C4: stage assignment is a total, non-overlapping partition of the
momentum domain: `momentum_pct < 0 ↔ early_negative`,
`0 ≤ momentum_pct ≤ 5 ↔ early_positive`, `5 < momentum_pct ≤ 15 ↔
confirmed`, `momentum_pct > 15 ↔ late`; in particular momentum 0 gives
early_positive, exactly 15.0 gives confirmed, and 15.01 gives late. -/
theorem stage_partition :
    (∀ m : ℚ,
      (stageOf m = "early_negative" ↔ m < 0) ∧
      (stageOf m = "early_positive" ↔ 0 ≤ m ∧ m ≤ 5) ∧
      (stageOf m = "confirmed" ↔ 5 < m ∧ m ≤ 15) ∧
      (stageOf m = "late" ↔ 15 < m)) ∧
    stageOf 0 = "early_positive" ∧ stageOf 15 = "confirmed" ∧
    stageOf (15.01 : ℚ) = "late" := by
  refine ⟨?_, ?_, ?_, ?_⟩
  · intro m
    unfold stageOf early_max confirmed_max
    split_ifs with h1 h2 h3 <;>
      refine ⟨?_, ?_, ?_, ?_⟩ <;>
      constructor <;> intro h <;> first
        | rfl
        | (exact absurd h (by decide))
        | (constructor <;> linarith)
        | linarith
  · norm_num [stageOf, early_max, confirmed_max]
  · norm_num [stageOf, early_max, confirmed_max]
  · norm_num [stageOf, early_max, confirmed_max]

/-- C5: for every opportunity, a missing current price, a non-positive
current price, or a non-positive reference price makes the classifier
return `none` (graceful exclusion); otherwise it returns the record whose
momentum is `(current_price - reference_price) / reference_price * 100`. -/
theorem momentum_guards :
    ∀ (opp : Opp) (md : String → Option ℚ),
      (md opp.tickerOf = none → calculate_momentum_and_stage opp md = none) ∧
      (∀ cp, md opp.tickerOf = some cp → cp ≤ 0 →
        calculate_momentum_and_stage opp md = none) ∧
      (∀ cp, md opp.tickerOf = some cp → opp.refPrice ≤ 0 →
        calculate_momentum_and_stage opp md = none) ∧
      (∀ cp, md opp.tickerOf = some cp → 0 < cp → 0 < opp.refPrice →
        calculate_momentum_and_stage opp md =
          some { current_price := cp
                 insider_price := opp.refPrice
                 momentum_pct := (cp - opp.refPrice) / opp.refPrice * 100
                 stage := stageOf ((cp - opp.refPrice) / opp.refPrice * 100)
                 risk_level := riskOf ((cp - opp.refPrice) / opp.refPrice * 100) }) := by
  intro opp md
  refine ⟨?_, ?_, ?_, ?_⟩
  · intro h
    simp [calculate_momentum_and_stage, h]
  · intro cp h hle
    simp [calculate_momentum_and_stage, h, hle]
  · intro cp h hle
    by_cases hcp : cp ≤ 0 <;> simp [calculate_momentum_and_stage, h, hcp, hle]
  · intro cp h hcp href
    simp [calculate_momentum_and_stage, h, not_le.mpr hcp, not_le.mpr href]

/-- Witness for C5: the $120M whale bought at $50 with a live quote of $55
is enriched, with the momentum formula applied at those prices. -/
theorem momentum_guards_witness :
    calculate_momentum_and_stage (Opp.whale (mkWhaleOpp row_ceo)) mkt =
      some { current_price := 55
             insider_price := (Opp.whale (mkWhaleOpp row_ceo)).refPrice
             momentum_pct :=
               (55 - (Opp.whale (mkWhaleOpp row_ceo)).refPrice) /
                 (Opp.whale (mkWhaleOpp row_ceo)).refPrice * 100
             stage := stageOf ((55 - (Opp.whale (mkWhaleOpp row_ceo)).refPrice) /
               (Opp.whale (mkWhaleOpp row_ceo)).refPrice * 100)
             risk_level := riskOf ((55 - (Opp.whale (mkWhaleOpp row_ceo)).refPrice) /
               (Opp.whale (mkWhaleOpp row_ceo)).refPrice * 100) } :=
  (momentum_guards (Opp.whale (mkWhaleOpp row_ceo)) mkt).2.2.2 55
    (by decide) (by decide) (by decide)

end Mybot
